import Mathlib

/-!
Verification development for the sandooo sandwich-trading bot.

This file gives a shallow embedding, in Lean, of the pure computational
content of the Rust sources, and proves properties of that embedding.
Machine integers (U256, U64, u64, u32, i128) are modelled as Nat or Int;
the Rust arithmetic either cannot overflow on the inputs considered or
panics on overflow, so the Nat translation is exact on all non-panicking
executions.  Byte strings (the ethers Bytes type) are modelled as
List Nat, each element one byte.  Addresses (H160) and hashes (H256) are
modelled as Nat values, reading the bytes big-endian.
-/

/- ===================================================================
   AMM math, from src/sandwich/simulation.rs (get_v2_amount_out).
   Rust: amount_in_with_fee = amount_in * 997;
         numerator = amount_in_with_fee * reserve_out;
         denominator = reserve_in * 1000 + amount_in_with_fee;
         numerator.checked_div(denominator).unwrap_or_default()
   checked_div returns None exactly when the denominator is zero, and
   unwrap_or_default then yields 0; Lean Nat division by zero is also 0,
   so plain / is a faithful translation.
   =================================================================== -/

def get_v2_amount_out (amount_in reserve_in reserve_out : Nat) : Nat :=
  let amount_in_with_fee := amount_in * 997
  let numerator := amount_in_with_fee * reserve_out
  let denominator := reserve_in * 1000 + amount_in_with_fee
  numerator / denominator

/- ===================================================================
   Next-block base fee, from src/common/utils.rs
   (calculate_next_block_base_fee).  The call
   rand::thread_rng().gen_range(0..9) is modelled by the extra
   parameter seed, constrained to seed < 9 where a theorem needs the
   range of the jitter.
   =================================================================== -/

def calculate_next_block_base_fee (gas_used gas_limit base_fee_per_gas seed : Nat) : Nat :=
  let target0 := gas_limit / 2
  let target_gas_used := if target0 = 0 then 1 else target0
  let new_base_fee :=
    if gas_used > target_gas_used then
      base_fee_per_gas + base_fee_per_gas * (gas_used - target_gas_used) / target_gas_used / 8
    else
      base_fee_per_gas - base_fee_per_gas * (target_gas_used - gas_used) / target_gas_used / 8
  new_base_fee + seed

/- ===================================================================
   Pool discovery, from src/common/pools.rs.
   =================================================================== -/

inductive DexVariant where
  | uniswapV2
  | uniswapV3
deriving DecidableEq, Repr

structure Pool where
  id : Int
  address : Nat
  version : DexVariant
  token0 : Nat
  token1 : Nat
  fee : Nat
  block_number : Nat
  timestamp : Nat
deriving DecidableEq, Repr

/-- One event log as consumed by load_uniswap_v2_pools: the first three
topics (H256 words, big-endian values), the optional block number
(log.block_number, an Option in ethers), and the data bytes. -/
structure LogEntry where
  topic0 : Nat
  topic1 : Nat
  topic2 : Nat
  block_number : Option Nat
  data : List Nat
deriving DecidableEq, Repr

/-- Big-endian byte list to Nat (each entry is taken mod 256, matching
a byte). -/
def beBytesToNat (bs : List Nat) : Nat :=
  bs.foldl (fun acc b => acc * 256 + b % 256) 0

/-- ethers::abi::decode(&[ParamType::Address, ParamType::Uint(256)], data):
succeeds when at least two 32-byte words are present; the address is the
low 20 bytes of the first word, the uint is the second word. -/
def decodeAddressUint (data : List Nat) : Option (Nat × Nat) :=
  if 64 ≤ data.length then
    some (beBytesToNat (data.take 32) % 2 ^ 160, beBytesToNat ((data.drop 32).take 32))
  else
    none

/-- load_uniswap_v2_pools from src/common/pools.rs, as a pure function of
the logs returned by get_logs.  The per-block timestamp_map cache only
memoizes the provider call get_block(block_number).timestamp, so it is
modelled by the oracle blockTimestamp.  H160::from(topics[i]) keeps the
low 20 bytes of the 32-byte topic, hence the mod 2^160.
log.block_number.unwrap_or_default() is Option.getD _ 0. -/
def load_uniswap_v2_pools (signature : Nat) (blockTimestamp : Nat → Nat)
    (logs : List LogEntry) : List Pool :=
  logs.filterMap (fun log =>
    if log.topic0 ≠ signature then none
    else
      let block_number := log.block_number.getD 0
      let timestamp := blockTimestamp block_number
      match decodeAddressUint log.data with
      | some (pair, _) =>
          some { id := -1
                 address := pair
                 version := DexVariant.uniswapV2
                 token0 := log.topic1 % 2 ^ 160
                 token1 := log.topic2 % 2 ^ 160
                 fee := 300
                 block_number := block_number
                 timestamp := timestamp }
      | none => none)

/- ===================================================================
   The PendingTx event handler of run_sandwich_strategy
   (src/sandwich/strategy.rs): the should_add flag and the decision to
   run the swap extractor.
   =================================================================== -/

/-- Outcome of provider.get_transaction_receipt(tx_hash) in the PendingTx
handler: Ok(Some(_)) (the tx is mined), Ok(None), or Err(_). -/
inductive ReceiptResult where
  | minedReceipt
  | noReceipt
  | rpcError
deriving DecidableEq, Repr

/-- Value of should_add after the receipt check: it starts false, is set
true only when the receipt query returns Ok(None). -/
def should_add_initial : ReceiptResult → Bool
  | ReceiptResult.minedReceipt => false
  | ReceiptResult.noReceipt => true
  | ReceiptResult.rpcError => false

/-- Value of should_add after the gas-price gate: a type-0 tx overwrites
it with gas_price >= base_fee, a type-2 tx with max_fee >= base_fee,
any other (or absent) type leaves it unchanged.
unwrap_or_default() on the optional fee fields is Option.getD _ 0. -/
def should_add_after_gate (prev : Bool) (txType : Option Nat)
    (gasPrice maxFee : Option Nat) (baseFee : Nat) : Bool :=
  match txType with
  | some t =>
      if t = 0 then decide (gasPrice.getD 0 ≥ baseFee)
      else if t = 2 then decide (maxFee.getD 0 ≥ baseFee)
      else prev
  | none => prev

/-- The hard-coded flag in run_sandwich_strategy:
let force_check = true; (commented TEMPORARY DEBUG MODE). -/
def force_check : Bool := true

/-- Whether extract_swap_info is invoked for a pending transaction:
the source runs it under (should_add || force_check). -/
def runs_swap_extractor (receipt : ReceiptResult) (txType : Option Nat)
    (gasPrice maxFee : Option Nat) (baseFee : Nat) : Bool :=
  should_add_after_gate (should_add_initial receipt) txType gasPrice maxFee baseFee || force_check

/- ===================================================================
   The Block event handler of run_sandwich_strategy
   (src/sandwich/strategy.rs): removal of mined transactions, pruning
   of stale pending transactions (head - added_block < 3 retained), and
   the end-of-loop secondary sweep with cutoff head - 5.
   =================================================================== -/

/-- NewPendingTx: the added_block stamp (None until the strategy stores
the tx) and the tx hash. -/
structure NewPendingTx where
  added_block : Option Nat
  tx_hash : Nat
deriving DecidableEq, Repr

/-- PendingTxInfo: the pending tx plus the touched pairs (pair addresses
suffice for the properties proved here). -/
structure PendingTxInfo where
  pending_tx : NewPendingTx
  touched_pairs : List Nat
deriving DecidableEq, Repr

/-- First step of the Block handler: drop every pending tx whose hash
appears in the mined block (the Rust loop removes them one by one from
the HashMap, which on an association list is this filter). -/
def remove_confirmed (block_txs : List Nat) (pending : List (Nat × PendingTxInfo)) :
    List (Nat × PendingTxInfo) :=
  pending.filter (fun e => !(block_txs.contains e.1))

/-- Second step: pending_txs.retain with
added_block.map_or(true, |block| (head - block) < 3). -/
def prune_stale (head : Nat) (pending : List (Nat × PendingTxInfo)) :
    List (Nat × PendingTxInfo) :=
  pending.filter (fun e =>
    match e.2.pending_tx.added_block with
    | none => true
    | some b => decide (head - b < 3))

/-- End-of-loop sweep: cutoff_block = head - 5 (0 when head <= 5);
entries with added_block.map_or(false, |block| block < cutoff) are
removed. -/
def flush_old (head : Nat) (pending : List (Nat × PendingTxInfo)) :
    List (Nat × PendingTxInfo) :=
  pending.filter (fun e =>
    !(match e.2.pending_tx.added_block with
      | none => false
      | some b => decide (b < (if 5 < head then head - 5 else 0))))

/-- State of pending_txs after one full pass of the strategy loop over a
Block event (remove mined, prune stale, end-of-loop sweep). -/
def process_block_event (head : Nat) (block_txs : List Nat)
    (pending : List (Nat × PendingTxInfo)) : List (Nat × PendingTxInfo) :=
  flush_old head (prune_stale head (remove_confirmed block_txs pending))

/- ===================================================================
   BatchSandwich::simulate (src/sandwich/simulation.rs) as a trace of
   the simulator interactions it performs, in source order.  Only the
   operations relevant to the base fee in effect are distinguished:
   set_base_fee calls, the frontrun call, the victim replays, the
   backrun call; the read-only queries (reserves, balances,
   access-list tracing) are collapsed into readState markers.
   =================================================================== -/

inductive SimAction where
  | setBaseFee (value : Nat)
  | callFrontrun
  | callVictim (tx_hash : Nat)
  | callBackrun
  | readState
deriving DecidableEq, Repr

/-- The simulator-interaction trace of BatchSandwich::simulate for the
supplied base_fee and victim tx hashes:
reserve reads and setup; set_base_fee(base_fee); call(front_tx);
call(victim_tx) for each victim; set_base_fee(0); reserve/balance
reads; set_base_fee(base_fee); call(back_tx); set_base_fee(0);
final balance reads. -/
def simulate_actions (base_fee : Nat) (victim_hashes : List Nat) : List SimAction :=
  [SimAction.readState] ++
  [SimAction.setBaseFee base_fee, SimAction.callFrontrun] ++
  victim_hashes.map SimAction.callVictim ++
  [SimAction.setBaseFee 0, SimAction.readState,
   SimAction.setBaseFee base_fee, SimAction.callBackrun,
   SimAction.setBaseFee 0, SimAction.readState]

/-- Folds a trace, recording the simulator base fee in effect at each
victim replay.  The first argument is the current base fee of the
forked EVM (revm initializes env.block.basefee to 0). -/
def victim_base_fees_aux : Nat → List SimAction → List Nat
  | _, [] => []
  | _, SimAction.setBaseFee v :: rest => victim_base_fees_aux v rest
  | cur, SimAction.callVictim _ :: rest => cur :: victim_base_fees_aux cur rest
  | cur, SimAction.callFrontrun :: rest => victim_base_fees_aux cur rest
  | cur, SimAction.callBackrun :: rest => victim_base_fees_aux cur rest
  | cur, SimAction.readState :: rest => victim_base_fees_aux cur rest

/-- The base fees in effect at the victim replays of
BatchSandwich::simulate, one entry per victim in order. -/
def victim_base_fees (base_fee : Nat) (victim_hashes : List Nat) : List Nat :=
  victim_base_fees_aux 0 (simulate_actions base_fee victim_hashes)

/- ===================================================================
   Sandwich::optimize (src/sandwich/simulation.rs): the bisecting sweep
   over amount_in and the profit-floor gate.  The per-amount simulation
   (simulate_sandwich, which runs BatchSandwich::simulate on the forked
   EVM) is modelled by the oracle sim : amount_in -> SimOutcome, and the
   loop is given explicit fuel (the Rust loop terminates because the
   interval shrinks; exhausted fuel returns the accumulators unchanged,
   exactly like the break).
   =================================================================== -/

/-- The (idx, amount_in, revenue, front_gas, back_gas, front_calldata,
back_calldata) tuple produced by simulate_sandwich, minus idx and
amount_in which the loop supplies. -/
structure SimOutcome where
  revenue : Int
  front_gas_used : Nat
  back_gas_used : Nat
  front_calldata : List Nat
  back_calldata : List Nat
deriving DecidableEq, Repr

/-- The mutable locals of Sandwich::optimize across loop iterations. -/
structure SweepState where
  optimized_in : Nat
  max_revenue : Nat
  max_front_gas_used : Nat
  max_back_gas_used : Nat
  max_front_calldata : List Nat
  max_back_calldata : List Nat
  min_amount_in : Nat
  max_amount_in : Nat
deriving DecidableEq, Repr

/-- One pass over the revenue vector: for each tuple in order, when
profit > max_revenue the accumulators and max_idx are updated. -/
def sweep_scan (revenue : List (Nat × Nat × SimOutcome)) (st : SweepState) :
    SweepState × Nat :=
  revenue.foldl
    (fun acc r =>
      if r.2.2.revenue > (acc.1.max_revenue : Int) then
        ({ acc.1 with
            optimized_in := r.2.1
            max_revenue := r.2.2.revenue.toNat
            max_front_gas_used := r.2.2.front_gas_used
            max_back_gas_used := r.2.2.back_gas_used
            max_front_calldata := r.2.2.front_calldata
            max_back_calldata := r.2.2.back_calldata }, r.1)
      else acc)
    (st, 0)

/-- The loop of Sandwich::optimize.  intervals = 5; each round simulates
the 6 points min + i*step, locates the argmax, and narrows
[min_amount_in, max_amount_in] to the neighbours of the argmax
(saturating at the endpoints, as in the Rust indexing). -/
def optimize_sweep (sim : Nat → SimOutcome) (tolerance : Nat) :
    Nat → SweepState → SweepState
  | 0, st => st
  | fuel + 1, st =>
    let diff := st.max_amount_in - st.min_amount_in
    let step := diff / 5
    if step ≤ tolerance then st
    else
      let inputs := (List.range 6).map (fun i => st.min_amount_in + i * step)
      let revenue := inputs.enum.map (fun p => (p.1, p.2, sim p.2))
      let scanned := sweep_scan revenue st
      let max_idx := scanned.2
      let dflt : Nat × Nat × SimOutcome := (0, 0, ⟨0, 0, 0, [], []⟩)
      let new_min := if max_idx = 0 then 0 else (revenue.getD (max_idx - 1) dflt).2.1
      let new_max :=
        if max_idx = revenue.length - 1 then (revenue.getD max_idx dflt).2.1
        else (revenue.getD (max_idx + 1) dflt).2.1
      optimize_sweep sim tolerance fuel
        { scanned.1 with min_amount_in := new_min, max_amount_in := new_max }

/-- Result record of Sandwich::optimize. -/
structure OptimizedSandwich where
  amount_in : Nat
  max_revenue : Nat
  front_gas_used : Nat
  back_gas_used : Nat
  front_access_list : List (Nat × List Nat)
  back_access_list : List (Nat × List Nat)
  front_calldata : List Nat
  back_calldata : List Nat
deriving DecidableEq, Repr

/-- The all-zero OptimizedSandwich the source returns on the early exit
and under the profit floor (U256::zero / 0 / AccessList::default /
Bytes::default everywhere). -/
def zeroedOptimizedSandwich : OptimizedSandwich :=
  { amount_in := 0
    max_revenue := 0
    front_gas_used := 0
    back_gas_used := 0
    front_access_list := []
    back_access_list := []
    front_calldata := []
    back_calldata := [] }

/-- tolerance = 1e14 when the main currency is WETH, else 1e3. -/
def optimize_tolerance (main_is_weth : Bool) : Nat :=
  if main_is_weth then 10 ^ 14 else 10 ^ 3

/-- The locals of Sandwich::optimize before the loop: accumulators zero,
min_amount_in = 0, max_amount_in = amount_in_ceiling. -/
def initial_sweep_state (amount_in_ceiling : Nat) : SweepState :=
  { optimized_in := 0
    max_revenue := 0
    max_front_gas_used := 0
    max_back_gas_used := 0
    max_front_calldata := []
    max_back_calldata := []
    min_amount_in := 0
    max_amount_in := amount_in_ceiling }

/-- The hard profit floor: 20_000_000_000_000_000 wei = 0.02 ETH. -/
def min_profit_threshold : Nat := 20000000000000000

/-- The code after the loop of Sandwich::optimize: below the profit
floor the zeroed OptimizedSandwich is returned, otherwise the
accumulators together with the caller-supplied access lists. -/
def optimize_finalize (front_access_list back_access_list : List (Nat × List Nat))
    (final : SweepState) : OptimizedSandwich :=
  if final.max_revenue < min_profit_threshold then zeroedOptimizedSandwich
  else
    { amount_in := final.optimized_in
      max_revenue := final.max_revenue
      front_gas_used := final.max_front_gas_used
      back_gas_used := final.max_back_gas_used
      front_access_list := front_access_list
      back_access_list := back_access_list
      front_calldata := final.max_front_calldata
      back_calldata := final.max_back_calldata }

/-- Sandwich::optimize.  The early return fires when
max_amount_in < min_amount_in, i.e. amount_in_ceiling < 0 (dead for
unsigned values, kept for structural fidelity). -/
def sandwich_optimize (sim : Nat → SimOutcome) (main_is_weth : Bool)
    (amount_in_ceiling : Nat)
    (front_access_list back_access_list : List (Nat × List Nat))
    (fuel : Nat) : OptimizedSandwich :=
  if amount_in_ceiling < 0 then zeroedOptimizedSandwich
  else
    optimize_finalize front_access_list back_access_list
      (optimize_sweep sim (optimize_tolerance main_is_weth) fuel
        (initial_sweep_state amount_in_ceiling))

/- ===================================================================
   Executor::create_sando_bundle (src/common/execution.rs).  The
   _common_fields() call supplies (owner address, provider nonce,
   chain id); these become parameters.
   =================================================================== -/

/-- An Eip1559TransactionRequest as filled in by the executor (every
field the source sets). -/
structure Eip1559Tx where
  to_addr : Nat
  from_addr : Nat
  data : List Nat
  value : Nat
  chain_id : Nat
  max_priority_fee_per_gas : Nat
  max_fee_per_gas : Nat
  gas : Nat
  nonce : Nat
  access_list : List (Nat × List Nat)
deriving DecidableEq, Repr

/-- A victim transaction snapshot (VictimTx in src/common/evm.rs). -/
structure VictimTx where
  tx_hash : Nat
  from_addr : Nat
  to_addr : Nat
  data : List Nat
  value : Nat
  gas_price : Nat
  gas_limit : Option Nat
deriving DecidableEq, Repr

/-- SandoBundle: frontrun, victims, backrun. -/
structure SandoBundle where
  frontrun_tx : Eip1559Tx
  victim_txs : List VictimTx
  backrun_tx : Eip1559Tx
deriving DecidableEq, Repr

/-- Executor::create_sando_bundle: front_nonce is the provider nonce,
back_nonce = front_nonce + 1; the frontrun pays priority fee 0 with
max fee = base_fee; the backrun pays the supplied priority/max fees. -/
def create_sando_bundle (owner nonce chain_id bot_address : Nat)
    (victim_txs : List VictimTx) (front_calldata back_calldata : List Nat)
    (front_access_list back_access_list : List (Nat × List Nat))
    (front_gas_limit back_gas_limit base_fee
     max_priority_fee_per_gas max_fee_per_gas : Nat) : SandoBundle :=
  let front_nonce := nonce
  let back_nonce := front_nonce + 1
  { frontrun_tx :=
      { to_addr := bot_address
        from_addr := owner
        data := front_calldata
        value := 0
        chain_id := chain_id
        max_priority_fee_per_gas := 0
        max_fee_per_gas := base_fee
        gas := front_gas_limit
        nonce := front_nonce
        access_list := front_access_list }
    victim_txs := victim_txs
    backrun_tx :=
      { to_addr := bot_address
        from_addr := owner
        data := back_calldata
        value := 0
        chain_id := chain_id
        max_priority_fee_per_gas := max_priority_fee_per_gas
        max_fee_per_gas := max_fee_per_gas
        gas := back_gas_limit
        nonce := back_nonce
        access_list := back_access_list } }

/- ===================================================================
   create_flashloan_sandwich_tx (src/common/execution_v3.rs): assembly
   of the flash-loan sandwich payload and its format check.
   =================================================================== -/

/-- block_number.as_u64().to_be_bytes(): the 8 big-endian bytes of a
u64 value. -/
def u64_be_bytes (n : Nat) : List Nat :=
  [n / 2 ^ 56 % 256, n / 2 ^ 48 % 256, n / 2 ^ 40 % 256, n / 2 ^ 32 % 256,
   n / 2 ^ 24 % 256, n / 2 ^ 16 % 256, n / 2 ^ 8 % 256, n % 256]

/-- The sandwich_data vector: 8 bytes of block number, then the
frontrun calldata minus its first 4 bytes (when longer than 4), then
the backrun calldata minus its first 4 bytes (when longer than 4). -/
def sandwich_data (block_number : Nat) (front_calldata back_calldata : List Nat) :
    List Nat :=
  let d0 := u64_be_bytes block_number
  let d1 := d0 ++ (if 4 < front_calldata.length then front_calldata.drop 4 else [])
  d1 ++ (if 4 < back_calldata.length then back_calldata.drop 4 else [])

/-- The Eip1559TransactionRequest built by create_flashloan_sandwich_tx;
the executeSandwichWithFlashloan calldata is kept as its decoded
arguments (asset, amount, sandwich payload). -/
structure FlashloanTx where
  from_addr : Nat
  to_addr : Nat
  value : Nat
  asset : Nat
  amount : Nat
  payload : List Nat
  nonce : Nat
  gas : Nat
  max_priority_fee_per_gas : Nat
  max_fee_per_gas : Nat
deriving DecidableEq, Repr

/-- create_flashloan_sandwich_tx: assembles sandwich_data and rejects it
unless its length exceeds 8 with (length - 8) a multiple of 105;
otherwise builds the EIP-1559 transaction to the bot address. -/
def create_flashloan_sandwich_tx (owner nonce bot_address asset amount : Nat)
    (front_calldata back_calldata : List Nat)
    (block_number gas_limit max_priority_fee_per_gas max_fee_per_gas : Nat) :
    Except String FlashloanTx :=
  let data := sandwich_data block_number front_calldata back_calldata
  if data.length ≤ 8 ∨ (data.length - 8) % 105 ≠ 0 then
    Except.error "Invalid sandwich data format. Expected 8 bytes + Nx105 bytes."
  else
    Except.ok
      { from_addr := owner
        to_addr := bot_address
        value := 0
        asset := asset
        amount := amount
        payload := data
        nonce := nonce
        gas := gas_limit
        max_priority_fee_per_gas := max_priority_fee_per_gas
        max_fee_per_gas := max_fee_per_gas }

/- ===================================================================
   BatchSandwich::bundle_id (src/sandwich/simulation.rs).  The Rust
   code renders each victim tx hash with the Debug formatter
   ("0x" ++ 64 lowercase hex digits), keeps the first 10 characters
   ("0x" ++ the leading 8 hex digits, i.e. the top 4 bytes of the
   hash), sorts the strings, removes consecutive duplicates, and joins
   with "-".  Lexicographic order on these equal-length hex strings
   coincides with numeric order on the top-4-byte values, so the model
   sorts those values and renders them afterwards.
   =================================================================== -/

inductive SwapDirection where
  | buy
  | sell
deriving DecidableEq, Repr

structure SwapInfo where
  tx_hash : Nat
  target_pair : Nat
  main_currency : Nat
  target_token : Nat
  version : DexVariant
  token0_is_main : Bool
  fee : Nat
  direction : SwapDirection
deriving DecidableEq, Repr

structure Sandwich where
  amount_in : Nat
  swap_info : SwapInfo
  victim_tx : VictimTx
  optimized_sandwich : Option OptimizedSandwich
deriving DecidableEq, Repr

structure BatchSandwich where
  sandwiches : List Sandwich
  swap_info_vec : List SwapInfo
  flashloan_asset : Nat
deriving DecidableEq, Repr

/-- The top 4 bytes of a 32-byte hash value: what the first 8 hex digits
of the Debug rendering encode. -/
def hash_top4 (h : Nat) : Nat := h / 2 ^ 224

/-- Vec::dedup: removes consecutive duplicate elements. -/
def dedup_adjacent : List Nat → List Nat
  | [] => []
  | [a] => [a]
  | a :: b :: rest =>
      if a = b then dedup_adjacent (b :: rest) else a :: dedup_adjacent (b :: rest)

/-- A lowercase hex digit character. -/
def hex_char (n : Nat) : Char :=
  if n < 10 then Char.ofNat (48 + n) else Char.ofNat (87 + n)

/-- The k low hex digits of n, most significant first. -/
def hex_digits : Nat → Nat → List Char
  | 0, _ => []
  | k + 1, n => hex_digits k (n / 16) ++ [hex_char (n % 16)]

/-- The 10-character string kept from the Debug rendering of a hash
whose top 4 bytes are p. -/
def hash_prefix_string (p : Nat) : String :=
  String.mk ('0' :: 'x' :: hex_digits 8 p)

/-- BatchSandwich::bundle_id: collect the 4-byte hash prefixes of the
victim transactions, sort, dedup consecutive duplicates, join with
"-". -/
def BatchSandwich.bundle_id (b : BatchSandwich) : String :=
  let tx_hashes := b.sandwiches.map (fun s => hash_top4 s.victim_tx.tx_hash)
  let sorted := List.insertionSort (fun x y => x ≤ y) tx_hashes
  let deduped := dedup_adjacent sorted
  String.intercalate "-" (deduped.map hash_prefix_string)

/-- A minimal victim transaction used as concrete test data. -/
def sample_victim (h : Nat) : VictimTx :=
  { tx_hash := h, from_addr := 0, to_addr := 0, data := [], value := 0,
    gas_price := 0, gas_limit := none }

/-- A minimal swap info used as concrete test data. -/
def sample_swap_info : SwapInfo :=
  { tx_hash := 0, target_pair := 0, main_currency := 0, target_token := 0,
    version := DexVariant.uniswapV2, token0_is_main := true, fee := 300,
    direction := SwapDirection.buy }

/-- A minimal sandwich whose victim has the given tx hash. -/
def sample_sandwich (h : Nat) : Sandwich :=
  { amount_in := 0, swap_info := sample_swap_info, victim_tx := sample_victim h,
    optimized_sandwich := none }

/- ===================================================================
   Theorems.
   =================================================================== -/

/-- C9: when a block uses exactly the target gas (gas_limit / 2, clamped
to at least 1), calculate_next_block_base_fee leaves the base fee
unchanged up to the random jitter: the result lies in
[base_fee, base_fee + 8]. -/
theorem c9_base_fee_at_target (gas_used gas_limit base_fee seed : Nat)
    (hseed : seed < 9)
    (htarget : gas_used = (if gas_limit / 2 = 0 then 1 else gas_limit / 2)) :
    base_fee ≤ calculate_next_block_base_fee gas_used gas_limit base_fee seed ∧
    calculate_next_block_base_fee gas_used gas_limit base_fee seed ≤ base_fee + 8 := by
  subst htarget
  unfold calculate_next_block_base_fee
  simp only [gt_iff_lt, lt_self_iff_false, if_false, Nat.sub_self, Nat.mul_zero,
    Nat.zero_div, Nat.sub_zero]
  omega

/-- C9 witness: at gas_limit 100 (target 50), base fee 1000, seed 8, the
result stays within [1000, 1008]. -/
theorem c9_base_fee_at_target_witness :
    1000 ≤ calculate_next_block_base_fee 50 100 1000 8 ∧
    calculate_next_block_base_fee 50 100 1000 8 ≤ 1000 + 8 :=
  c9_base_fee_at_target 50 100 1000 8 (by decide) (by decide)

/-- C7: in every bundle built by create_sando_bundle, the backrun nonce
is the frontrun nonce plus one, and the frontrun max priority fee per
gas is zero. -/
theorem c7_sando_bundle_nonces_and_priority_fee
    (owner nonce chain_id bot_address : Nat) (victim_txs : List VictimTx)
    (front_calldata back_calldata : List Nat)
    (front_access_list back_access_list : List (Nat × List Nat))
    (front_gas_limit back_gas_limit base_fee mpf mf : Nat) :
    (create_sando_bundle owner nonce chain_id bot_address victim_txs
        front_calldata back_calldata front_access_list back_access_list
        front_gas_limit back_gas_limit base_fee mpf mf).backrun_tx.nonce =
      (create_sando_bundle owner nonce chain_id bot_address victim_txs
        front_calldata back_calldata front_access_list back_access_list
        front_gas_limit back_gas_limit base_fee mpf mf).frontrun_tx.nonce + 1 ∧
    (create_sando_bundle owner nonce chain_id bot_address victim_txs
        front_calldata back_calldata front_access_list back_access_list
        front_gas_limit back_gas_limit base_fee mpf mf).frontrun_tx.max_priority_fee_per_gas
      = 0 :=
  ⟨rfl, rfl⟩

/-- C6: create_flashloan_sandwich_tx builds a transaction exactly when
the assembled sandwich payload is longer than 8 bytes and its length
minus 8 is a multiple of 105; otherwise it returns an error. -/
theorem c6_flashloan_payload_format (owner nonce bot_address asset amount : Nat)
    (front_calldata back_calldata : List Nat)
    (block_number gas_limit mpf mf : Nat) :
    (∃ tx, create_flashloan_sandwich_tx owner nonce bot_address asset amount
        front_calldata back_calldata block_number gas_limit mpf mf = Except.ok tx) ↔
    (8 < (sandwich_data block_number front_calldata back_calldata).length ∧
      ((sandwich_data block_number front_calldata back_calldata).length - 8) % 105 = 0) := by
  simp only [create_flashloan_sandwich_tx]
  by_cases h : (sandwich_data block_number front_calldata back_calldata).length ≤ 8 ∨
      ((sandwich_data block_number front_calldata back_calldata).length - 8) % 105 ≠ 0
  · rw [if_pos h]
    constructor
    · intro hex
      obtain ⟨tx, htx⟩ := hex
      exact Except.noConfusion htx
    · intro hok
      omega
  · rw [if_neg h]
    constructor
    · intro _
      push_neg at h
      omega
    · intro _
      exact ⟨_, rfl⟩

/-- C5: when the bisecting sweep of Sandwich::optimize finds a maximum
revenue below the hard profit floor of 0.02 native units, optimize
returns the all-zero OptimizedSandwich. -/
theorem c5_profit_floor (sim : Nat → SimOutcome) (main_is_weth : Bool)
    (amount_in_ceiling : Nat)
    (front_access_list back_access_list : List (Nat × List Nat)) (fuel : Nat)
    (h : (optimize_sweep sim (optimize_tolerance main_is_weth) fuel
            (initial_sweep_state amount_in_ceiling)).max_revenue < min_profit_threshold) :
    sandwich_optimize sim main_is_weth amount_in_ceiling
        front_access_list back_access_list fuel = zeroedOptimizedSandwich := by
  unfold sandwich_optimize
  rw [if_neg (Nat.not_lt_zero amount_in_ceiling)]
  unfold optimize_finalize
  rw [if_pos h]

/-- C5 witness: a sweep whose oracle always reports zero revenue stays
below the floor, and optimize returns the zeroed result. -/
theorem c5_profit_floor_witness :
    (optimize_sweep (fun _ => ⟨0, 0, 0, [], []⟩) (optimize_tolerance true) 0
        (initial_sweep_state 0)).max_revenue < min_profit_threshold ∧
    sandwich_optimize (fun _ => ⟨0, 0, 0, [], []⟩) true 0 [] [] 0 =
      zeroedOptimizedSandwich :=
  ⟨by decide, c5_profit_floor (fun _ => ⟨0, 0, 0, [], []⟩) true 0 [] [] 0 (by decide)⟩

/-- C3: evaluation of the source at a gate-failing input.  A type-0
pending transaction with gas price 1 against base fee 100 fails the
gas-price gate (should_add = false), yet the swap extractor is still
invoked, because the source hard-codes force_check = true and runs the
extractor under (should_add || force_check). -/
theorem c3_force_check_bypasses_gate :
    should_add_after_gate (should_add_initial ReceiptResult.noReceipt)
        (some 0) (some 1) none 100 = false ∧
    runs_swap_extractor ReceiptResult.noReceipt (some 0) (some 1) none 100 = true := by
  decide

/-- C8: after the strategy loop finishes processing a Block event, every
pending-transaction entry that survives carries an added_block at most
3 behind the head. -/
theorem c8_pending_pruned (head : Nat) (block_txs : List Nat)
    (pending : List (Nat × PendingTxInfo)) (e : Nat × PendingTxInfo)
    (he : e ∈ process_block_event head block_txs pending) (b : Nat)
    (hb : e.2.pending_tx.added_block = some b) : head - b ≤ 3 := by
  unfold process_block_event flush_old at he
  have h1 : e ∈ prune_stale head (remove_confirmed block_txs pending) :=
    List.mem_of_mem_filter he
  unfold prune_stale at h1
  have h2 := (List.mem_filter.mp h1).2
  rw [hb] at h2
  simp only [decide_eq_true_eq] at h2
  omega

/-- C8 witness: an entry stamped at block 0 surviving the Block handler
at head 2 satisfies the bound. -/
theorem c8_pending_pruned_witness : (2 : Nat) - 0 ≤ 3 :=
  c8_pending_pruned 2 [] [(1, ⟨⟨some 0, 99⟩, []⟩)] (1, ⟨⟨some 0, 99⟩, []⟩)
    (by decide) 0 rfl

/-- C2 counterexample: a PairCreated log processed by
load_uniswap_v2_pools yields a pool whose fee is not 3000 (the source
hard-codes fee 300). -/
theorem c2_fee_counterexample :
    ∃ p ∈ load_uniswap_v2_pools 5 (fun _ => 0)
        [⟨5, 1, 2, some 10, List.replicate 64 0⟩], p.fee ≠ 3000 := by
  decide

/-- C2 amended: every pool constructed from a PairCreated log during V2
pool discovery is recorded with fee 300. -/
theorem c2_fee_300 (signature : Nat) (blockTimestamp : Nat → Nat)
    (logs : List LogEntry) (p : Pool)
    (hp : p ∈ load_uniswap_v2_pools signature blockTimestamp logs) : p.fee = 300 := by
  unfold load_uniswap_v2_pools at hp
  obtain ⟨log, _, hmap⟩ := List.mem_filterMap.mp hp
  split at hmap
  · exact Option.noConfusion hmap
  · split at hmap
    · cases hmap
      rfl
    · exact Option.noConfusion hmap

/-- C2 amended witness: the pool produced by the concrete log above has
fee 300. -/
theorem c2_fee_300_witness :
    (Pool.mk (-1) 0 DexVariant.uniswapV2 1 2 300 10 0).fee = 300 :=
  c2_fee_300 5 (fun _ => 0) [⟨5, 1, 2, some 10, List.replicate 64 0⟩] _ (by decide)

/-- Cross-multiplication bound for Nat floor division: with positive
denominators, n1 * d2 <= n2 * d1 gives n1 / d1 <= n2 / d2. -/
theorem nat_div_le_div_cross {n1 d1 n2 d2 : Nat} (hd1 : 0 < d1) (hd2 : 0 < d2)
    (h : n1 * d2 ≤ n2 * d1) : n1 / d1 ≤ n2 / d2 := by
  have h1 : n1 / d1 = n1 * d2 / (d1 * d2) := (Nat.mul_div_mul_right n1 d1 hd2).symm
  have h2 : n2 / d2 = n2 * d1 / (d2 * d1) := (Nat.mul_div_mul_right n2 d2 hd1).symm
  rw [h1, h2, Nat.mul_comm d2 d1]
  exact Nat.div_le_div_right h

/-- C4 counterexample: at amount_in 1000 and reserves (1000, 1000),
doubling both reserves changes get_v2_amount_out (499 becomes 665). -/
theorem c4_homogeneity_counterexample :
    ¬ (get_v2_amount_out 1000 (2 * 1000) (2 * 1000) =
        get_v2_amount_out 1000 1000 1000) := by
  decide

/-- C4 amended: doubling both reserves never decreases
get_v2_amount_out for a fixed input amount (the floor divisions make
the doubled-reserve output weakly larger, not equal). -/
theorem c4_reserve_doubling_mono (amount_in r0 r1 : Nat) :
    get_v2_amount_out amount_in r0 r1 ≤ get_v2_amount_out amount_in (2 * r0) (2 * r1) := by
  simp only [get_v2_amount_out]
  rcases Nat.eq_zero_or_pos amount_in with h0 | hpos
  · subst h0
    simp
  · have hA : 0 < amount_in * 997 := by positivity
    apply nat_div_le_div_cross (by omega) (by omega)
    nlinarith [Nat.zero_le (amount_in * 997 * (amount_in * 997) * r1)]

/-- C1 counterexample: with block base fee 7 and a single victim, the
victim is not replayed at base fee 0 (the trace of
BatchSandwich::simulate zeroes the base fee only after the victim
loop). -/
theorem c1_victim_base_fee_counterexample :
    ¬ (∀ f ∈ victim_base_fees 7 [42], f = 0) := by
  decide

/-- Replaying the victim section of the trace: each victim call records
the base fee currently in effect. -/
theorem victim_base_fees_aux_map (cur : Nat) (l : List Nat) (rest : List SimAction) :
    victim_base_fees_aux cur (l.map SimAction.callVictim ++ rest) =
      List.replicate l.length cur ++ victim_base_fees_aux cur rest := by
  induction l with
  | nil => simp
  | cons h t ih => simp [victim_base_fees_aux, ih, List.replicate_succ]

/-- C1 amended: in BatchSandwich::simulate every victim transaction is
replayed while the simulator base fee still equals the caller-supplied
base_fee (set for the frontrun); the base fee is set to zero only after
the victim loop. -/
theorem c1_victims_replayed_at_block_base_fee (base_fee : Nat) (victim_hashes : List Nat) :
    victim_base_fees base_fee victim_hashes =
      List.replicate victim_hashes.length base_fee := by
  unfold victim_base_fees simulate_actions
  simp only [List.append_eq, List.cons_append, List.nil_append, victim_base_fees_aux]
  rw [victim_base_fees_aux_map]
  simp [victim_base_fees_aux]

/-- Removing consecutive duplicates preserves membership. -/
theorem mem_dedup_adjacent (a : Nat) (l : List Nat) :
    a ∈ dedup_adjacent l ↔ a ∈ l := by
  induction l with
  | nil => simp [dedup_adjacent]
  | cons b t ih =>
    cases t with
    | nil => simp [dedup_adjacent]
    | cons c rest =>
      by_cases h : b = c
      · subst h
        have e1 : dedup_adjacent (b :: b :: rest) = dedup_adjacent (b :: rest) := by
          simp [dedup_adjacent]
        rw [e1, ih]
        constructor
        · exact fun hx => List.mem_cons_of_mem b hx
        · intro hx
          rcases List.mem_cons.mp hx with rfl | hx2
          · exact List.mem_cons_self a rest
          · exact hx2
      · simp only [dedup_adjacent, if_neg h]
        simp only [List.mem_cons, ih]

/-- On a list sorted by <=, removing consecutive duplicates produces a
strictly sorted list. -/
theorem sorted_lt_dedup_adjacent {l : List Nat} (hs : l.Sorted (fun x y => x ≤ y)) :
    (dedup_adjacent l).Sorted (fun x y => x < y) := by
  induction l with
  | nil => simp [dedup_adjacent]
  | cons b t ih =>
    cases t with
    | nil => simp [dedup_adjacent]
    | cons c rest =>
      have hs' : (c :: rest).Sorted (fun x y => x ≤ y) := hs.of_cons
      by_cases h : b = c
      · simp only [dedup_adjacent, if_pos h]
        exact ih hs'
      · simp only [dedup_adjacent, if_neg h]
        refine List.Pairwise.cons ?_ (ih hs')
        intro x hx
        have hx' : x ∈ c :: rest := (mem_dedup_adjacent x _).mp hx
        have hbc : b ≤ c := List.rel_of_sorted_cons hs c (List.mem_cons_self c rest)
        rcases List.mem_cons.mp hx' with rfl | hxr
        · exact lt_of_le_of_ne hbc h
        · exact lt_of_lt_of_le (lt_of_le_of_ne hbc h) (List.rel_of_sorted_cons hs' x hxr)

/-- Two strictly sorted lists with the same members are equal. -/
theorem eq_of_sorted_lt_ext :
    ∀ (l1 l2 : List Nat), l1.Sorted (fun x y => x < y) →
      l2.Sorted (fun x y => x < y) → (∀ a, a ∈ l1 ↔ a ∈ l2) → l1 = l2 := by
  intro l1
  induction l1 with
  | nil =>
    intro l2 _ _ hm
    cases l2 with
    | nil => rfl
    | cons b t => exact absurd ((hm b).mpr (List.mem_cons_self b t)) (List.not_mem_nil b)
  | cons a t1 ih =>
    intro l2 h1 h2 hm
    cases l2 with
    | nil => exact absurd ((hm a).mp (List.mem_cons_self a t1)) (List.not_mem_nil a)
    | cons b t2 =>
      have hab : a = b := by
        rcases List.mem_cons.mp ((hm a).mp (List.mem_cons_self a t1)) with h | ha2
        · exact h
        · rcases List.mem_cons.mp ((hm b).mpr (List.mem_cons_self b t2)) with h | hb1
          · exact h.symm
          · have hba : b < a := List.rel_of_sorted_cons h2 a ha2
            have hab2 : a < b := List.rel_of_sorted_cons h1 b hb1
            omega
      subst hab
      have ht : t1 = t2 := by
        apply ih t2 h1.of_cons h2.of_cons
        intro x
        constructor
        · intro hx
          have hax : a < x := List.rel_of_sorted_cons h1 x hx
          rcases List.mem_cons.mp ((hm x).mp (List.mem_cons_of_mem a hx)) with h | h
          · omega
          · exact h
        · intro hx
          have hax : a < x := List.rel_of_sorted_cons h2 x hx
          rcases List.mem_cons.mp ((hm x).mpr (List.mem_cons_of_mem a hx)) with h | h
          · omega
          · exact h
      rw [ht]

/-- sort-then-dedup is a canonical form of the member set: two lists
with the same members normalize identically. -/
theorem dedup_sort_ext (l1 l2 : List Nat) (h : ∀ a, a ∈ l1 ↔ a ∈ l2) :
    dedup_adjacent (List.insertionSort (fun x y => x ≤ y) l1) =
      dedup_adjacent (List.insertionSort (fun x y => x ≤ y) l2) := by
  apply eq_of_sorted_lt_ext
  · exact sorted_lt_dedup_adjacent (List.sorted_insertionSort _ l1)
  · exact sorted_lt_dedup_adjacent (List.sorted_insertionSort _ l2)
  · intro a
    rw [mem_dedup_adjacent, mem_dedup_adjacent,
        (List.perm_insertionSort _ l1).mem_iff, (List.perm_insertionSort _ l2).mem_iff]
    exact h a

/-- C10: bundle_id depends only on the set of victim tx hashes --
permuting the sandwiches leaves it unchanged, and so does appending a
sandwich whose victim hash is already present, because the 4-byte hash
prefixes are sorted and deduplicated before being joined. -/
theorem c10_bundle_id_set_invariant :
    (∀ b1 b2 : BatchSandwich, b1.sandwiches.Perm b2.sandwiches →
        b1.bundle_id = b2.bundle_id) ∧
    (∀ (b : BatchSandwich) (s : Sandwich),
        s.victim_tx.tx_hash ∈ b.sandwiches.map (fun t => t.victim_tx.tx_hash) →
        BatchSandwich.bundle_id ⟨b.sandwiches ++ [s], b.swap_info_vec, b.flashloan_asset⟩ =
          b.bundle_id) := by
  constructor
  · intro b1 b2 hp
    simp only [BatchSandwich.bundle_id]
    rw [dedup_sort_ext
      (b1.sandwiches.map fun s => hash_top4 s.victim_tx.tx_hash)
      (b2.sandwiches.map fun s => hash_top4 s.victim_tx.tx_hash)
      (fun a => (hp.map _).mem_iff)]
  · intro b s hs
    simp only [BatchSandwich.bundle_id]
    rw [dedup_sort_ext
      ((b.sandwiches ++ [s]).map fun t => hash_top4 t.victim_tx.tx_hash)
      (b.sandwiches.map fun t => hash_top4 t.victim_tx.tx_hash)
      ?_]
    intro a
    rw [List.map_append]
    simp only [List.map_cons, List.map_nil, List.mem_append, List.mem_singleton]
    constructor
    · rintro (h | h)
      · exact h
      · subst h
        obtain ⟨t, ht, hth⟩ := List.mem_map.mp hs
        exact List.mem_map.mpr ⟨t, ht, congrArg hash_top4 hth⟩
    · exact Or.inl

/-- C10 witness: swapping two sandwiches, and appending one whose victim
hash is already present, both leave the bundle id unchanged. -/
theorem c10_bundle_id_set_invariant_witness :
    (BatchSandwich.mk [sample_sandwich 1, sample_sandwich 2] [] 0).bundle_id =
      (BatchSandwich.mk [sample_sandwich 2, sample_sandwich 1] [] 0).bundle_id ∧
    (BatchSandwich.mk ([sample_sandwich 1] ++ [sample_sandwich 1]) [] 0).bundle_id =
      (BatchSandwich.mk [sample_sandwich 1] [] 0).bundle_id :=
  ⟨c10_bundle_id_set_invariant.1 _ _ (List.Perm.swap _ _ _),
   c10_bundle_id_set_invariant.2 ⟨[sample_sandwich 1], [], 0⟩ (sample_sandwich 1)
     (by simp [sample_sandwich, sample_victim])⟩
